import Mathlib

/-!
Shallow embedding of `src/rust-core/src/wasm_vm.rs` (the NeoNet `WasmVM`).

Rust `HashMap<String, α>` is modelled as an association list observed only
through `findMap` (first binding wins), so `insertMap` prepends: the newest
binding shadows older ones, matching `HashMap::insert` overwrite semantics
for every lookup the source performs.  `u64` is modelled as `Nat`: every
arithmetic step in the source is an addition guarded away from underflow
(`balance -= amount` only under `balance >= amount`), and overflow of the
64-bit counters is a Rust panic, not a value, so it has no result to embed.
Rust `anyhow!` error messages are embedded as the constructors of `VMError`,
one per distinct message in the source.
-/

def findMap {α : Type} (m : List (String × α)) (k : String) : Option α :=
  match m with
  | [] => none
  | (k2, v) :: rest => if k2 == k then some v else findMap rest k

def insertMap {α : Type} (m : List (String × α)) (k : String) (v : α) :
    List (String × α) :=
  (k, v) :: m

/-- Rust `str::parse::<u64>`: optional leading sign `+`, then one or more
ASCII digits, value below `2 ^ 64`; anything else is a parse error. -/
def parseU64 (s : String) : Option Nat :=
  let cs : List Char := s.data
  let ds : List Char :=
    match cs with
    | c :: rest => if c == '+' then rest else cs
    | [] => []
  if ds.isEmpty then none
  else if ds.all Char.isDigit then
    let n : Nat := ds.foldl (fun acc c => acc * 10 + (c.toNat - 48)) 0
    if n < 2 ^ 64 then some n else none
  else none

structure WasmContract where
  address : String
  code : List Nat
  storage : List (String × String)
  balance : Nat
deriving DecidableEq, Repr

structure WasmVM where
  contracts : List (String × WasmContract)
  gas_limit : Nat
  gas_used : Nat
deriving DecidableEq, Repr

/-- One constructor per distinct `anyhow!` message in `wasm_vm.rs`:
`contractAlreadyExists` = "Contract already exists at address" (spec
`DuplicateAddress`), `invalidMagic` = "Invalid WASM magic number" (spec
`InvalidFormat`), `outOfGas` = "Out of gas" (spec `GasExhausted`),
`contractNotFound` = "Contract not found", `missingStorageKey` =
"Missing storage key", `missingKeyOrValue` = "Missing key or value",
`insufficientBalance` = "Insufficient balance", `missingAmount` =
"Missing amount" (the storage and amount ones map to spec
`MissingArgument`). -/
inductive VMError where
  | contractAlreadyExists
  | invalidMagic
  | outOfGas
  | contractNotFound
  | missingStorageKey
  | missingKeyOrValue
  | insufficientBalance
  | missingAmount
deriving DecidableEq, Repr

def WasmVM.new (gas_limit : Nat) : WasmVM :=
  { contracts := [], gas_limit := gas_limit, gas_used := 0 }

/-- `WasmVM::deploy_contract` (wasm_vm.rs lines 29-48). -/
def WasmVM.deploy_contract (vm : WasmVM) (address : String) (code : List Nat) :
    Except VMError Unit × WasmVM :=
  if (findMap vm.contracts address).isSome then
    (Except.error VMError.contractAlreadyExists, vm)
  else if code.length < 4 || code.take 4 != [0x00, 0x61, 0x73, 0x6D] then
    (Except.error VMError.invalidMagic, vm)
  else
    let contract : WasmContract :=
      { address := address, code := code, storage := [], balance := 0 }
    (Except.ok (),
     { vm with contracts := insertMap vm.contracts address contract,
               gas_used := vm.gas_used + 21000 })

/-- `WasmVM::call_contract` (wasm_vm.rs lines 50-99).  The Rust method
mutates `self` and returns a `Result<String>`; here the mutated state is
returned as the second component, in every branch. -/
def WasmVM.call_contract (vm : WasmVM) (address : String) (method : String)
    (args : List String) : Except VMError String × WasmVM :=
  let vm1 : WasmVM := { vm with gas_used := vm.gas_used + 3000 }
  if vm1.gas_used > vm1.gas_limit then
    (Except.error VMError.outOfGas, vm1)
  else
    match findMap vm1.contracts address with
    | none => (Except.error VMError.contractNotFound, vm1)
    | some contract =>
      if method == "get_balance" then
        (Except.ok (toString contract.balance), vm1)
      else if method == "get_storage" then
        match args with
        | key :: _ =>
          (Except.ok ((findMap contract.storage key).getD ("")), vm1)
        | [] => (Except.error VMError.missingStorageKey, vm1)
      else if method == "set_storage" then
        match args with
        | key :: value :: _ =>
          let c2 : WasmContract :=
            { contract with storage := insertMap contract.storage key value }
          (Except.ok ("Storage set: " ++ key ++ " = " ++ value),
           { vm1 with contracts := insertMap vm1.contracts address c2,
                      gas_used := vm1.gas_used + 5000 })
        | _ => (Except.error VMError.missingKeyOrValue, vm1)
      else if method == "transfer" then
        match args with
        | amount_str :: _ =>
          let amount : Nat := (parseU64 amount_str).getD 0
          if contract.balance ≥ amount then
            let c2 : WasmContract :=
              { contract with balance := contract.balance - amount }
            (Except.ok ("Transferred: " ++ toString amount),
             { vm1 with contracts := insertMap vm1.contracts address c2,
                        gas_used := vm1.gas_used + 10000 })
          else
            (Except.error VMError.insufficientBalance, vm1)
        | [] => (Except.error VMError.missingAmount, vm1)
      else
        (Except.ok ("WASM method \x27" ++ method ++ "\x27 executed with " ++
                    toString args.length ++ " args"),
         { vm1 with gas_used := vm1.gas_used + 1000 })

/-- `WasmVM::execute_wasm` (wasm_vm.rs lines 101-108); the Rust method
returns the UTF-8 bytes of the string returned here. -/
def WasmVM.execute_wasm (vm : WasmVM) (address : String) (input : List Nat) :
    Except VMError String × WasmVM :=
  if (findMap vm.contracts address).isSome then
    (Except.ok ("WASM executed for " ++ toString input.length ++ " bytes input"),
     { vm with gas_used := vm.gas_used + 10000 })
  else
    (Except.error VMError.contractNotFound, vm)

def WasmVM.get_gas_used (vm : WasmVM) : Nat :=
  vm.gas_used

def WasmVM.get_contract (vm : WasmVM) (address : String) : Option WasmContract :=
  findMap vm.contracts address

/-- `WasmVM::deposit` (wasm_vm.rs lines 118-123). -/
def WasmVM.deposit (vm : WasmVM) (address : String) (amount : Nat) :
    Except VMError Unit × WasmVM :=
  match findMap vm.contracts address with
  | none => (Except.error VMError.contractNotFound, vm)
  | some c =>
    (Except.ok (),
     { vm with contracts :=
         insertMap vm.contracts address { c with balance := c.balance + amount } })

/-- One session operation, for stating properties over sequences of calls. -/
inductive VMOp where
  | deploy (address : String) (code : List Nat)
  | call (address : String) (method : String) (args : List String)
  | execute (address : String) (input : List Nat)
  | deposit (address : String) (amount : Nat)

/-- The state reached after one operation (its result discarded). -/
def VMOp.apply (vm : WasmVM) : VMOp → WasmVM
  | VMOp.deploy a c => (vm.deploy_contract a c).2
  | VMOp.call a m args => (vm.call_contract a m args).2
  | VMOp.execute a i => (vm.execute_wasm a i).2
  | VMOp.deposit a n => (vm.deposit a n).2

def runOps (vm : WasmVM) (ops : List VMOp) : WasmVM :=
  ops.foldl VMOp.apply vm

/-- A deployed contract used by the concrete witnesses below. -/
def demoContract : WasmContract :=
  { address := ("c"), code := [0x00, 0x61, 0x73, 0x6D], storage := [], balance := 5 }

/-- Session whose limit 3000 is exactly the base charge of one call. -/
def vmLowGas : WasmVM :=
  { contracts := [(("c"), demoContract)], gas_limit := 3000, gas_used := 0 }

/-- Session with ample gas. -/
def vmRich : WasmVM :=
  { contracts := [(("c"), demoContract)], gas_limit := 1000000, gas_used := 0 }

/-- Session whose gas_used 4000 already exceeds its limit 3000. -/
def vmSpent : WasmVM :=
  { contracts := [(("c"), demoContract)], gas_limit := 3000, gas_used := 4000 }

lemma findMap_insert_self {α : Type} (m : List (String × α)) (k : String) (v : α) :
    findMap (insertMap m k v) k = some v := by
  simp [findMap, insertMap]

/-- The only branch of `call_contract` producing "Out of gas" is the base
charge check: the result is that error exactly when the base charge pushes
`gas_used` above `gas_limit`. -/
lemma outOfGas_iff_base (vm : WasmVM) (addr method : String) (args : List String) :
    (vm.call_contract addr method args).1 = Except.error VMError.outOfGas ↔
      vm.gas_limit < vm.gas_used + 3000 := by
  unfold WasmVM.call_contract
  by_cases h : vm.gas_used + 3000 > vm.gas_limit
  · simp [h]
  · simp [h]
    repeat' split
    all_goals simp

lemma gas_le_apply (vm : WasmVM) (op : VMOp) :
    vm.gas_used ≤ (VMOp.apply vm op).gas_used := by
  cases op with
  | deploy a c =>
    simp only [VMOp.apply]
    unfold WasmVM.deploy_contract
    repeat' split
    all_goals simp
  | call a m args =>
    simp only [VMOp.apply]
    unfold WasmVM.call_contract
    by_cases hg : vm.gas_limit < vm.gas_used + 3000
    · simp [hg]
    · simp [hg]
      cases hfm : findMap vm.contracts a with
      | none => simp [hfm]
      | some contract =>
        simp [hfm]
        repeat' split
        all_goals (try simp)
        all_goals omega
  | execute a i =>
    simp only [VMOp.apply]
    unfold WasmVM.execute_wasm
    repeat' split
    all_goals simp
  | deposit a n =>
    simp only [VMOp.apply]
    unfold WasmVM.deposit
    repeat' split
    all_goals simp

lemma gas_le_runOps (ops : List VMOp) (vm : WasmVM) :
    vm.gas_used ≤ (runOps vm ops).gas_used := by
  induction ops generalizing vm with
  | nil => simp [runOps]
  | cons op rest ih =>
    calc vm.gas_used ≤ (VMOp.apply vm op).gas_used := gas_le_apply vm op
    _ ≤ (runOps (VMOp.apply vm op) rest).gas_used := ih _
    _ = (runOps vm (op :: rest)).gas_used := rfl

/-- Claim C2: every `call_contract` adds the base cost 3000 to `gas_used`
first; the call fails with GasExhausted ("Out of gas") exactly when the
resulting `gas_used` exceeds `gas_limit`, and on that failure no handler
runs: the state is the input state with only the 3000 charge recorded,
not rolled back. -/
theorem call_contract_base_charge (vm : WasmVM) (addr method : String)
    (args : List String) :
    ((vm.call_contract addr method args).1 = Except.error VMError.outOfGas ↔
      vm.gas_limit < vm.gas_used + 3000) ∧
    (vm.gas_limit < vm.gas_used + 3000 →
      vm.call_contract addr method args =
        (Except.error VMError.outOfGas, { vm with gas_used := vm.gas_used + 3000 })) := by
  refine ⟨outOfGas_iff_base vm addr method args, ?_⟩
  intro h
  unfold WasmVM.call_contract
  simp [h]

/-- Witness for C2 at a concrete exhausted session. -/
theorem call_contract_base_charge_witness :
    vmSpent.call_contract ("a") ("m") [] =
      (Except.error VMError.outOfGas, { vmSpent with gas_used := vmSpent.gas_used + 3000 }) :=
  (call_contract_base_charge vmSpent ("a") ("m") []).2 (by decide)

/-- Claim C7: once `gas_used` exceeds `gas_limit`, every subsequent
`call_contract`, for any address, method and arguments, fails with
GasExhausted at the base charge step; the state shows only the base
charge, so no handler ever runs again. -/
theorem exhausted_session_rejects_calls (vm : WasmVM)
    (h : vm.gas_limit < vm.gas_used) (addr method : String) (args : List String) :
    vm.call_contract addr method args =
      (Except.error VMError.outOfGas, { vm with gas_used := vm.gas_used + 3000 }) := by
  unfold WasmVM.call_contract
  have h2 : vm.gas_used + 3000 > vm.gas_limit := by omega
  simp [h2]

/-- Witness for C7: a session with gas_used 4000 over limit 3000 rejects
a call that would otherwise succeed. -/
theorem exhausted_session_rejects_calls_witness :
    vmSpent.call_contract ("c") ("get_balance") [] =
      (Except.error VMError.outOfGas, { vmSpent with gas_used := vmSpent.gas_used + 3000 }) :=
  exhausted_session_rejects_calls vmSpent (by decide) ("c") ("get_balance") []

/-- Claim C9: `call_contract` on an absent address still records the 3000
base charge; it returns ContractNotFound exactly when that charge stays
within the limit, and GasExhausted takes precedence otherwise. -/
theorem call_missing_contract_gas (vm : WasmVM) (addr method : String)
    (args : List String) (habs : findMap vm.contracts addr = none) :
    (vm.call_contract addr method args).2 = { vm with gas_used := vm.gas_used + 3000 } ∧
    ((vm.call_contract addr method args).1 = Except.error VMError.contractNotFound ↔
      vm.gas_used + 3000 ≤ vm.gas_limit) ∧
    (vm.gas_limit < vm.gas_used + 3000 →
      (vm.call_contract addr method args).1 = Except.error VMError.outOfGas) := by
  unfold WasmVM.call_contract
  by_cases h : vm.gas_used + 3000 > vm.gas_limit
  · simp [h]
  · simp [h, habs]
    omega

/-- Witness for C9 at a fresh session and an unknown address. -/
theorem call_missing_contract_gas_witness :
    ((WasmVM.new 100000).call_contract ("nobody") ("m") []).2 =
      { WasmVM.new 100000 with gas_used := (WasmVM.new 100000).gas_used + 3000 } ∧
    ((WasmVM.new 100000).call_contract ("nobody") ("m") []).1 =
      Except.error VMError.contractNotFound :=
  ⟨(call_missing_contract_gas (WasmVM.new 100000) ("nobody") ("m") [] rfl).1,
   ((call_missing_contract_gas (WasmVM.new 100000) ("nobody") ("m") [] rfl).2.1).mpr (by decide)⟩

/-- Claim C4: `deploy_contract` fails with DuplicateAddress on a registered
address leaving the state unchanged, fails with InvalidFormat when the code
is shorter than 4 bytes or its first 4 bytes differ from 00 61 73 6D
registering nothing, and otherwise inserts a contract with balance 0 and
empty storage and adds exactly 21000 to `gas_used`. -/
theorem deploy_contract_semantics (vm : WasmVM) (addr : String) (code : List Nat) :
    ((findMap vm.contracts addr).isSome →
      vm.deploy_contract addr code = (Except.error VMError.contractAlreadyExists, vm)) ∧
    (findMap vm.contracts addr = none →
      (code.length < 4 ∨ code.take 4 ≠ [0x00, 0x61, 0x73, 0x6D]) →
      vm.deploy_contract addr code = (Except.error VMError.invalidMagic, vm)) ∧
    (findMap vm.contracts addr = none → 4 ≤ code.length →
      code.take 4 = [0x00, 0x61, 0x73, 0x6D] →
      vm.deploy_contract addr code =
        (Except.ok (),
         { vm with contracts := insertMap vm.contracts addr (WasmContract.mk addr code [] 0),
                   gas_used := vm.gas_used + 21000 })) := by
  refine ⟨?_, ?_, ?_⟩
  · intro h
    unfold WasmVM.deploy_contract
    simp [h]
  · intro h hbad
    unfold WasmVM.deploy_contract
    rcases hbad with h1 | h2
    · simp [h, h1]
    · simp [h, h2]
  · intro h hlen hmagic
    unfold WasmVM.deploy_contract
    simp [h, hmagic, Nat.not_lt.2 hlen]

/-- Witness for C4: a successful deploy on a fresh session. -/
theorem deploy_contract_semantics_witness :
    (WasmVM.new 50000).deploy_contract ("c1") [0x00, 0x61, 0x73, 0x6D, 1, 0, 0, 0] =
      (Except.ok (),
       { WasmVM.new 50000 with
           contracts := insertMap (WasmVM.new 50000).contracts ("c1")
                          (WasmContract.mk ("c1") [0x00, 0x61, 0x73, 0x6D, 1, 0, 0, 0] [] 0),
           gas_used := (WasmVM.new 50000).gas_used + 21000 }) :=
  (deploy_contract_semantics (WasmVM.new 50000) ("c1")
      [0x00, 0x61, 0x73, 0x6D, 1, 0, 0, 0]).2.2 rfl (by decide) (by decide)

/-- Claim C10: `deploy_contract` never consults the gas limit: a fresh
address with valid magic succeeds and adds 21000 to `gas_used` under no
gas hypothesis at all, and no deploy can ever fail with GasExhausted. -/
theorem deploy_ignores_gas_limit (vm : WasmVM) (addr : String) (code : List Nat)
    (hfresh : findMap vm.contracts addr = none)
    (hlen : 4 ≤ code.length)
    (hmagic : code.take 4 = [0x00, 0x61, 0x73, 0x6D]) :
    (vm.deploy_contract addr code).1 = Except.ok () ∧
    (vm.deploy_contract addr code).2.gas_used = vm.gas_used + 21000 ∧
    ∀ (vm2 : WasmVM) (a : String) (cd : List Nat),
      (vm2.deploy_contract a cd).1 ≠ Except.error VMError.outOfGas := by
  refine ⟨?_, ?_, ?_⟩
  · unfold WasmVM.deploy_contract
    simp [hfresh, hmagic, Nat.not_lt.2 hlen]
  · unfold WasmVM.deploy_contract
    simp [hfresh, hmagic, Nat.not_lt.2 hlen]
  · intro vm2 a cd
    unfold WasmVM.deploy_contract
    repeat' split
    all_goals simp

/-- Witness for C10 on a session whose gas_used already exceeds its limit. -/
theorem deploy_ignores_gas_limit_witness :
    (vmSpent.deploy_contract ("d") [0x00, 0x61, 0x73, 0x6D]).1 = Except.ok () ∧
    (vmSpent.deploy_contract ("d") [0x00, 0x61, 0x73, 0x6D]).2.gas_used =
      vmSpent.gas_used + 21000 ∧
    vmSpent.gas_limit < vmSpent.gas_used :=
  ⟨(deploy_ignores_gas_limit vmSpent ("d") [0x00, 0x61, 0x73, 0x6D] rfl (by decide) rfl).1,
   (deploy_ignores_gas_limit vmSpent ("d") [0x00, 0x61, 0x73, 0x6D] rfl (by decide) rfl).2.1,
   by decide⟩

/-- Claim C6: `gas_used` starts at zero in a new session and never
decreases: after any single operation, and after any sequence of
operations (deploys, calls, generic executions and deposits, successful
or failed), it is at least its previous value. -/
theorem gas_used_monotone (gl : Nat) (vm : WasmVM) (op : VMOp) (ops : List VMOp) :
    (WasmVM.new gl).gas_used = 0 ∧
    vm.gas_used ≤ (VMOp.apply vm op).gas_used ∧
    vm.gas_used ≤ (runOps vm ops).gas_used :=
  ⟨rfl, gas_le_apply vm op, gas_le_runOps ops vm⟩

/-- Claim C8: an unrecognized method name, on an existing contract with the
base charge within the limit, charges an additional 1000, returns the
diagnostic string built from the method name and argument count, and
leaves the contract registry (hence all storage and balances) unchanged. -/
theorem fallback_method_semantics (vm : WasmVM) (addr method : String)
    (args : List String) (c : WasmContract)
    (h1 : method ≠ "get_balance") (h2 : method ≠ "get_storage")
    (h3 : method ≠ "set_storage") (h4 : method ≠ "transfer")
    (hc : findMap vm.contracts addr = some c)
    (hg : vm.gas_used + 3000 ≤ vm.gas_limit) :
    vm.call_contract addr method args =
      (Except.ok ("WASM method \x27" ++ method ++ "\x27 executed with " ++
        toString args.length ++ " args"),
       { vm with gas_used := vm.gas_used + 3000 + 1000 }) := by
  unfold WasmVM.call_contract
  have hng : ¬ vm.gas_limit < vm.gas_used + 3000 := by omega
  simp [hng, hc, h1, h2, h3, h4]

/-- Witness for C8 with the unrecognized method name "mint". -/
theorem fallback_method_semantics_witness :
    vmRich.call_contract ("c") ("mint") [("x")] =
      (Except.ok ("WASM method \x27" ++ ("mint") ++ "\x27 executed with " ++
        toString [("x")].length ++ " args"),
       { vmRich with gas_used := vmRich.gas_used + 3000 + 1000 }) :=
  fallback_method_semantics vmRich ("c") ("mint") [("x")] demoContract
    (by decide) (by decide) (by decide) (by decide) rfl (by decide)

/-- Claim C3: `transfer` with at least one argument parses the amount,
substituting 0 on parse failure; with sufficient balance it decrements the
balance, charges an additional 10000 after the base 3000 and returns the
Transferred string, otherwise it fails with InsufficientBalance leaving
every balance unchanged. -/
theorem transfer_semantics (vm : WasmVM) (addr s : String) (rest : List String)
    (c : WasmContract)
    (hc : findMap vm.contracts addr = some c)
    (hg : vm.gas_used + 3000 ≤ vm.gas_limit) :
    ((parseU64 s).getD 0 ≤ c.balance →
      vm.call_contract addr ("transfer") (s :: rest) =
        (Except.ok ("Transferred: " ++ toString ((parseU64 s).getD 0)),
         { vm with contracts := insertMap vm.contracts addr { c with balance := c.balance - (parseU64 s).getD 0 },
                   gas_used := vm.gas_used + 3000 + 10000 })) ∧
    (c.balance < (parseU64 s).getD 0 →
      vm.call_contract addr ("transfer") (s :: rest) =
        (Except.error VMError.insufficientBalance,
         { vm with gas_used := vm.gas_used + 3000 })) ∧
    (parseU64 s = none →
      (vm.call_contract addr ("transfer") (s :: rest)).1 =
        Except.ok ("Transferred: " ++ toString (0 : Nat))) := by
  unfold WasmVM.call_contract
  have hng : ¬ vm.gas_limit < vm.gas_used + 3000 := by omega
  refine ⟨?_, ?_, ?_⟩
  · intro hle
    simp [hng, hc, hle]
  · intro hlt
    have hnle : ¬ (parseU64 s).getD 0 ≤ c.balance := by omega
    simp [hng, hc, hnle]
  · intro hp
    simp [hng, hc, hp]

/-- Witness for C3: transferring 3 out of balance 5. -/
theorem transfer_semantics_witness :
    vmRich.call_contract ("c") ("transfer") [("3")] =
      (Except.ok ("Transferred: " ++ toString ((parseU64 ("3")).getD 0)),
       { vmRich with contracts := insertMap vmRich.contracts ("c") { demoContract with balance := demoContract.balance - (parseU64 ("3")).getD 0 },
                     gas_used := vmRich.gas_used + 3000 + 10000 }) :=
  (transfer_semantics vmRich ("c") ("3") [] demoContract rfl (by decide)).1 (by decide)

/-- Claim C5: with enough gas for both calls, `set_storage` followed by
`get_storage` on the same key returns the written value, and `get_storage`
on a key with no entry in the contract storage returns the empty string. -/
theorem storage_round_trip (vm : WasmVM) (addr key value : String) (c : WasmContract)
    (hc : findMap vm.contracts addr = some c)
    (hg : vm.gas_used + 11000 ≤ vm.gas_limit) :
    (vm.call_contract addr ("set_storage") [key, value]).1 =
      Except.ok ("Storage set: " ++ key ++ " = " ++ value) ∧
    ((vm.call_contract addr ("set_storage") [key, value]).2.call_contract addr ("get_storage") [key]).1 =
      Except.ok value ∧
    (∀ k2, findMap c.storage k2 = none →
      (vm.call_contract addr ("get_storage") [k2]).1 = Except.ok ("")) := by
  have hng : ¬ vm.gas_limit < vm.gas_used + 3000 := by omega
  have hset : vm.call_contract addr ("set_storage") [key, value] =
      (Except.ok ("Storage set: " ++ key ++ " = " ++ value),
       { vm with contracts := insertMap vm.contracts addr { c with storage := insertMap c.storage key value },
                 gas_used := vm.gas_used + 3000 + 5000 }) := by
    unfold WasmVM.call_contract
    simp [hng, hc]
  refine ⟨by rw [hset], ?_, ?_⟩
  · rw [hset]
    unfold WasmVM.call_contract
    have hng2 : ¬ vm.gas_limit < vm.gas_used + 3000 + 5000 + 3000 := by omega
    simp [hng2, findMap_insert_self]
  · intro k2 hk2
    unfold WasmVM.call_contract
    simp [hng, hc, hk2]

/-- Witness for C5 on a concrete session with ample gas. -/
theorem storage_round_trip_witness :
    (vmRich.call_contract ("c") ("set_storage") [("k"), ("v")]).1 =
      Except.ok ("Storage set: " ++ ("k") ++ " = " ++ ("v")) ∧
    ((vmRich.call_contract ("c") ("set_storage") [("k"), ("v")]).2.call_contract ("c") ("get_storage") [("k")]).1 =
      Except.ok ("v") ∧
    (vmRich.call_contract ("c") ("get_storage") [("z")]).1 = Except.ok ("") :=
  ⟨(storage_round_trip vmRich ("c") ("k") ("v") demoContract rfl (by decide)).1,
   (storage_round_trip vmRich ("c") ("k") ("v") demoContract rfl (by decide)).2.1,
   (storage_round_trip vmRich ("c") ("k") ("v") demoContract rfl (by decide)).2.2 ("z") rfl⟩

/-- Counterexample to C1 as stated: in a session with limit 3000, a
`set_storage` call charges 3000 + 5000 = 8000, so the updated `gas_used`
exceeds `gas_limit` after the handler charge, yet the call does NOT fail
with GasExhausted: it returns the success string and the storage write is
in place. -/
theorem set_storage_overshoot_not_rejected :
    (vmLowGas.call_contract ("c") ("set_storage") [("k"), ("v")]).2.gas_limit <
      (vmLowGas.call_contract ("c") ("set_storage") [("k"), ("v")]).2.gas_used ∧
    (vmLowGas.call_contract ("c") ("set_storage") [("k"), ("v")]).1 =
      Except.ok ("Storage set: " ++ ("k") ++ " = " ++ ("v")) ∧
    (vmLowGas.call_contract ("c") ("set_storage") [("k"), ("v")]).2.get_contract ("c") =
      some { demoContract with storage := insertMap demoContract.storage ("k") ("v") } :=
  ⟨by decide, rfl, by decide⟩

/-- Claim C1 (amended): handler-internal charges (5000 for set_storage,
10000 for transfer, 1000 for the fallback) are added to `gas_used` with NO
subsequent limit check: when the base charge passes, `set_storage` with two
arguments succeeds and retains both its storage write and its charge even
if the updated `gas_used` exceeds `gas_limit`; GasExhausted can only arise
from the base charge check. -/
theorem handler_charges_unchecked (vm : WasmVM) (addr key value : String)
    (rest : List String) (c : WasmContract)
    (hc : findMap vm.contracts addr = some c)
    (hg : vm.gas_used + 3000 ≤ vm.gas_limit) :
    vm.call_contract addr ("set_storage") (key :: value :: rest) =
      (Except.ok ("Storage set: " ++ key ++ " = " ++ value),
       { vm with contracts := insertMap vm.contracts addr { c with storage := insertMap c.storage key value },
                 gas_used := vm.gas_used + 3000 + 5000 }) ∧
    ∀ (vm2 : WasmVM) (a m : String) (ar : List String),
      (vm2.call_contract a m ar).1 = Except.error VMError.outOfGas →
      vm2.gas_limit < vm2.gas_used + 3000 := by
  have hng : ¬ vm.gas_limit < vm.gas_used + 3000 := by omega
  refine ⟨?_, ?_⟩
  · unfold WasmVM.call_contract
    simp [hng, hc]
  · intro vm2 a m ar h
    exact (outOfGas_iff_base vm2 a m ar).mp h

/-- Witness for amended C1: in the limit-3000 session the set_storage call
succeeds, ending at gas_used 8000, far above the limit. -/
theorem handler_charges_unchecked_witness :
    vmLowGas.call_contract ("c") ("set_storage") [("k"), ("v")] =
      (Except.ok ("Storage set: " ++ ("k") ++ " = " ++ ("v")),
       { vmLowGas with contracts := insertMap vmLowGas.contracts ("c") { demoContract with storage := insertMap demoContract.storage ("k") ("v") },
                       gas_used := vmLowGas.gas_used + 3000 + 5000 }) :=
  (handler_charges_unchecked vmLowGas ("c") ("k") ("v") [] demoContract rfl (by decide)).1
